import Mathlib

/-!
# The chainbase SDK facade (`.api/apis/chainbase/index.js`)

The file embeds the class `SDK` of the generated client: its constructor, the
three configuration methods `config`, `auth`, `server`, and the 21 endpoint
methods. Every method body is a call on `this.core`, an `APICore` object of the
third-party `api` package. That dispatcher is not part of the repository; it is
a parameter of the embedding (`APICore σ`), and every call made on it is
recorded in a trace, so that what the facade asks of the dispatcher can be
stated for an arbitrary dispatcher.
-/

namespace Chainbase

/-- Address of a heap object (an `SDK` instance or an `APICore` instance). -/
abbrev Ref := Nat

/-- JavaScript values, as far as the facade handles them. The facade inspects a
value in one place only (the default parameter of `server`); everything else is
passed along. `fulfilled v` and `rejected e` are settled promises. -/
inductive JSValue where
  | undefined
  | null
  | boolean (b : Bool)
  | number (n : Int)
  | string (s : String)
  | array (items : List JSValue)
  | object (fields : List (String × JSValue))
  | ref (r : Ref)
  | fulfilled (v : JSValue)
  | rejected (e : JSValue)

/-- How the evaluation of a call ends: it returns a value or throws one. -/
inductive Completion where
  | normal (v : JSValue)
  | throw (e : JSValue)

/-- The four methods of the dispatcher that the facade uses. -/
inductive CoreMethod where
  | setConfig
  | setAuth
  | setServer
  | fetch
  deriving DecidableEq, Repr

/-- One call made on the dispatcher: the method and the argument list. -/
structure CoreCall where
  method : CoreMethod
  args : List JSValue

/-- The dispatcher `APICore` of the `api` package, over its internal state `σ`.
Each operation receives the argument list of the call. `create` is
`new APICore(...)`. The three setters only store what they are given: they are
state transformers, and the facade discards what they return. `fetch` completes
with a value (a promise) or throws, and may change the dispatcher's state. -/
structure APICore (σ : Type) where
  create : List JSValue → σ
  setConfig : List JSValue → σ → σ
  setAuth : List JSValue → σ → σ
  setServer : List JSValue → σ → σ
  fetch : List JSValue → σ → Completion × σ

/-- The module's state: the one `SDK` instance (`createSDK`), at address `self`,
with its two fields `spec` and `core`; the internal state of the dispatcher
object that `core` refers to; and the trace of all calls made on dispatcher
objects so far, oldest first, each with the address of its receiver. -/
structure World (σ : Type) where
  self : Ref
  spec : JSValue
  core : Ref
  coreState : σ
  trace : List (Ref × CoreCall)

/-- Appends a call on `this.core` to the trace. -/
def World.record {σ : Type} (w : World σ) (m : CoreMethod) (args : List JSValue) : World σ :=
  { w with trace := w.trace ++ [(w.core, ⟨m, args⟩)] }

/-- The call `this.core.setConfig(...args)`. -/
def World.coreSetConfig {σ : Type} (api : APICore σ) (args : List JSValue) (w : World σ) :
    World σ :=
  { w.record .setConfig args with coreState := api.setConfig args w.coreState }

/-- The call `this.core.setAuth(...args)`. -/
def World.coreSetAuth {σ : Type} (api : APICore σ) (args : List JSValue) (w : World σ) :
    World σ :=
  { w.record .setAuth args with coreState := api.setAuth args w.coreState }

/-- The call `this.core.setServer(...args)`. -/
def World.coreSetServer {σ : Type} (api : APICore σ) (args : List JSValue) (w : World σ) :
    World σ :=
  { w.record .setServer args with coreState := api.setServer args w.coreState }

/-- The call `this.core.fetch(...args)`, with its completion. -/
def World.coreFetch {σ : Type} (api : APICore σ) (args : List JSValue) (w : World σ) :
    Completion × World σ :=
  ((api.fetch args w.coreState).1,
    { w.record .fetch args with coreState := (api.fetch args w.coreState).2 })

/-- The constructor of `SDK`: `this.spec = Oas.init(definition)` and
`this.core = new APICore(this.spec, 'chainbase/2.0.0 (api/6.1.1)')`. `Oas.init`
(third party) and `definition` (`openapi.json`) are parameters, and so are the
addresses the two allocations yield. -/
def SDK.construct {σ : Type} (api : APICore σ) (oasInit : JSValue → JSValue)
    (definition : JSValue) (self core : Ref) : World σ :=
  let spec := oasInit definition
  { self := self
    spec := spec
    core := core
    coreState := api.create [spec, .string "chainbase/2.0.0 (api/6.1.1)"]
    trace := [] }

/-- Method `config(config)`. -/
def SDK.config {σ : Type} (api : APICore σ) (config : JSValue) (w : World σ) :
    Completion × World σ :=
  (.normal .undefined, w.coreSetConfig api [config])

/-- Method `auth(...values)`. -/
def SDK.auth {σ : Type} (api : APICore σ) (values : List JSValue) (w : World σ) :
    Completion × World σ :=
  let w1 := w.coreSetAuth api values
  (.normal (.ref w1.self), w1)

/-- Method `server(url, variables = {})`; the parameter `variables` is written
`vars` (the source's name is a reserved word here). The default applies when the
argument is `undefined`, which is also what an omitted argument is. -/
def SDK.server {σ : Type} (api : APICore σ) (url vars : JSValue) (w : World σ) :
    Completion × World σ :=
  let vars :=
    match vars with
    | .undefined => JSValue.object []
    | v => v
  (.normal .undefined, w.coreSetServer api [url, vars])

/-- Method `get_address_information_getAddressInformation_get(metadata)`. -/
def SDK.get_address_information_getAddressInformation_get {σ : Type}
    (api : APICore σ) (metadata : JSValue) (w : World σ) : Completion × World σ :=
  w.coreFetch api [.string "/getAddressInformation", .string "get", metadata]

/-- Method `get_extended_address_information_getExtendedAddressInformation_get(metadata)`. -/
def SDK.get_extended_address_information_getExtendedAddressInformation_get {σ : Type}
    (api : APICore σ) (metadata : JSValue) (w : World σ) : Completion × World σ :=
  w.coreFetch api [.string "/getExtendedAddressInformation", .string "get", metadata]

/-- Method `get_wallet_information_getWalletInformation_get(metadata)`. -/
def SDK.get_wallet_information_getWalletInformation_get {σ : Type}
    (api : APICore σ) (metadata : JSValue) (w : World σ) : Completion × World σ :=
  w.coreFetch api [.string "/getWalletInformation", .string "get", metadata]

/-- Method `get_transactions_getTransactions_get(metadata)`. -/
def SDK.get_transactions_getTransactions_get {σ : Type}
    (api : APICore σ) (metadata : JSValue) (w : World σ) : Completion × World σ :=
  w.coreFetch api [.string "/getTransactions", .string "get", metadata]

/-- Method `get_address_balance_getAddressBalance_get(metadata)`. -/
def SDK.get_address_balance_getAddressBalance_get {σ : Type}
    (api : APICore σ) (metadata : JSValue) (w : World σ) : Completion × World σ :=
  w.coreFetch api [.string "/getAddressBalance", .string "get", metadata]

/-- Method `get_address_getAddressState_get(metadata)`. -/
def SDK.get_address_getAddressState_get {σ : Type}
    (api : APICore σ) (metadata : JSValue) (w : World σ) : Completion × World σ :=
  w.coreFetch api [.string "/getAddressState", .string "get", metadata]

/-- Method `pack_address_packAddress_get(metadata)`. -/
def SDK.pack_address_packAddress_get {σ : Type}
    (api : APICore σ) (metadata : JSValue) (w : World σ) : Completion × World σ :=
  w.coreFetch api [.string "/packAddress", .string "get", metadata]

/-- Method `unpack_address_unpackAddress_get(metadata)`. -/
def SDK.unpack_address_unpackAddress_get {σ : Type}
    (api : APICore σ) (metadata : JSValue) (w : World σ) : Completion × World σ :=
  w.coreFetch api [.string "/unpackAddress", .string "get", metadata]

/-- Method `get_masterchain_info_getMasterchainInfo_get()`: no parameter. -/
def SDK.get_masterchain_info_getMasterchainInfo_get {σ : Type}
    (api : APICore σ) (w : World σ) : Completion × World σ :=
  w.coreFetch api [.string "/getMasterchainInfo", .string "get"]

/-- Method `get_masterchain_block_signatures_getMasterchainBlockSignatures_get(metadata)`. -/
def SDK.get_masterchain_block_signatures_getMasterchainBlockSignatures_get {σ : Type}
    (api : APICore σ) (metadata : JSValue) (w : World σ) : Completion × World σ :=
  w.coreFetch api [.string "/getMasterchainBlockSignatures", .string "get", metadata]

/-- Method `get_shard_block_proof_getShardBlockProof_get(metadata)`. -/
def SDK.get_shard_block_proof_getShardBlockProof_get {σ : Type}
    (api : APICore σ) (metadata : JSValue) (w : World σ) : Completion × World σ :=
  w.coreFetch api [.string "/getShardBlockProof", .string "get", metadata]

/-- Method `get_consensus_block_getConsensusBlock_get()`: no parameter. -/
def SDK.get_consensus_block_getConsensusBlock_get {σ : Type}
    (api : APICore σ) (w : World σ) : Completion × World σ :=
  w.coreFetch api [.string "/getConsensusBlock", .string "get"]

/-- Method `lookup_block_lookupBlock_get(metadata)`. -/
def SDK.lookup_block_lookupBlock_get {σ : Type}
    (api : APICore σ) (metadata : JSValue) (w : World σ) : Completion × World σ :=
  w.coreFetch api [.string "/lookupBlock", .string "get", metadata]

/-- Method `get_shards_shards_get(metadata)`. -/
def SDK.get_shards_shards_get {σ : Type}
    (api : APICore σ) (metadata : JSValue) (w : World σ) : Completion × World σ :=
  w.coreFetch api [.string "/shards", .string "get", metadata]

/-- Method `get_block_transactions_getBlockTransactions_get(metadata)`. -/
def SDK.get_block_transactions_getBlockTransactions_get {σ : Type}
    (api : APICore σ) (metadata : JSValue) (w : World σ) : Completion × World σ :=
  w.coreFetch api [.string "/getBlockTransactions", .string "get", metadata]

/-- Method `get_block_header_getBlockHeader_get(metadata)`. -/
def SDK.get_block_header_getBlockHeader_get {σ : Type}
    (api : APICore σ) (metadata : JSValue) (w : World σ) : Completion × World σ :=
  w.coreFetch api [.string "/getBlockHeader", .string "get", metadata]

/-- Method `get_token_data_getTokenData_get(metadata)`. -/
def SDK.get_token_data_getTokenData_get {σ : Type}
    (api : APICore σ) (metadata : JSValue) (w : World σ) : Completion × World σ :=
  w.coreFetch api [.string "/getTokenData", .string "get", metadata]

/-- Method `get_try_locate_tx_tryLocateTx_get(metadata)`. -/
def SDK.get_try_locate_tx_tryLocateTx_get {σ : Type}
    (api : APICore σ) (metadata : JSValue) (w : World σ) : Completion × World σ :=
  w.coreFetch api [.string "/tryLocateTx", .string "get", metadata]

/-- Method `get_try_locate_result_tx_tryLocateResultTx_get(metadata)`. -/
def SDK.get_try_locate_result_tx_tryLocateResultTx_get {σ : Type}
    (api : APICore σ) (metadata : JSValue) (w : World σ) : Completion × World σ :=
  w.coreFetch api [.string "/tryLocateResultTx", .string "get", metadata]

/-- Method `get_try_locate_source_tx_tryLocateSourceTx_get(metadata)`. -/
def SDK.get_try_locate_source_tx_tryLocateSourceTx_get {σ : Type}
    (api : APICore σ) (metadata : JSValue) (w : World σ) : Completion × World σ :=
  w.coreFetch api [.string "/tryLocateSourceTx", .string "get", metadata]

/-- Method `detect_address_detectAddress_get(metadata)`. -/
def SDK.detect_address_detectAddress_get {σ : Type}
    (api : APICore σ) (metadata : JSValue) (w : World σ) : Completion × World σ :=
  w.coreFetch api [.string "/detectAddress", .string "get", metadata]

/-- The endpoint methods of the class, by name, in the order of the source. -/
inductive Endpoint where
  | get_address_information_getAddressInformation_get
  | get_extended_address_information_getExtendedAddressInformation_get
  | get_wallet_information_getWalletInformation_get
  | get_transactions_getTransactions_get
  | get_address_balance_getAddressBalance_get
  | get_address_getAddressState_get
  | pack_address_packAddress_get
  | unpack_address_unpackAddress_get
  | get_masterchain_info_getMasterchainInfo_get
  | get_masterchain_block_signatures_getMasterchainBlockSignatures_get
  | get_shard_block_proof_getShardBlockProof_get
  | get_consensus_block_getConsensusBlock_get
  | lookup_block_lookupBlock_get
  | get_shards_shards_get
  | get_block_transactions_getBlockTransactions_get
  | get_block_header_getBlockHeader_get
  | get_token_data_getTokenData_get
  | get_try_locate_tx_tryLocateTx_get
  | get_try_locate_result_tx_tryLocateResultTx_get
  | get_try_locate_source_tx_tryLocateSourceTx_get
  | detect_address_detectAddress_get
  deriving DecidableEq, Repr

/-- All endpoint methods, in the order of the source. -/
def Endpoint.all : List Endpoint :=
  [.get_address_information_getAddressInformation_get,
   .get_extended_address_information_getExtendedAddressInformation_get,
   .get_wallet_information_getWalletInformation_get,
   .get_transactions_getTransactions_get,
   .get_address_balance_getAddressBalance_get,
   .get_address_getAddressState_get,
   .pack_address_packAddress_get,
   .unpack_address_unpackAddress_get,
   .get_masterchain_info_getMasterchainInfo_get,
   .get_masterchain_block_signatures_getMasterchainBlockSignatures_get,
   .get_shard_block_proof_getShardBlockProof_get,
   .get_consensus_block_getConsensusBlock_get,
   .lookup_block_lookupBlock_get,
   .get_shards_shards_get,
   .get_block_transactions_getBlockTransactions_get,
   .get_block_header_getBlockHeader_get,
   .get_token_data_getTokenData_get,
   .get_try_locate_tx_tryLocateTx_get,
   .get_try_locate_result_tx_tryLocateResultTx_get,
   .get_try_locate_source_tx_tryLocateSourceTx_get,
   .detect_address_detectAddress_get]

/-- The `i`-th argument of a call: `undefined` when the caller passed fewer. -/
def JSValue.arg (args : List JSValue) (i : Nat) : JSValue :=
  args.getD i .undefined

/-- Number of parameters the method declares (`Function.length`). -/
def Endpoint.arity : Endpoint → Nat
  | .get_address_information_getAddressInformation_get => 1
  | .get_extended_address_information_getExtendedAddressInformation_get => 1
  | .get_wallet_information_getWalletInformation_get => 1
  | .get_transactions_getTransactions_get => 1
  | .get_address_balance_getAddressBalance_get => 1
  | .get_address_getAddressState_get => 1
  | .pack_address_packAddress_get => 1
  | .unpack_address_unpackAddress_get => 1
  | .get_masterchain_info_getMasterchainInfo_get => 0
  | .get_masterchain_block_signatures_getMasterchainBlockSignatures_get => 1
  | .get_shard_block_proof_getShardBlockProof_get => 1
  | .get_consensus_block_getConsensusBlock_get => 0
  | .lookup_block_lookupBlock_get => 1
  | .get_shards_shards_get => 1
  | .get_block_transactions_getBlockTransactions_get => 1
  | .get_block_header_getBlockHeader_get => 1
  | .get_token_data_getTokenData_get => 1
  | .get_try_locate_tx_tryLocateTx_get => 1
  | .get_try_locate_result_tx_tryLocateResultTx_get => 1
  | .get_try_locate_source_tx_tryLocateSourceTx_get => 1
  | .detect_address_detectAddress_get => 1

/-- A call `sdk[e](...args)` of an endpoint method: parameters are bound to the
arguments by position, a missing argument is `undefined`, and arguments beyond
the declared parameters are dropped. -/
def SDK.invoke {σ : Type} (api : APICore σ) (e : Endpoint) (args : List JSValue)
    (w : World σ) : Completion × World σ :=
  match e with
  | .get_address_information_getAddressInformation_get =>
    SDK.get_address_information_getAddressInformation_get api (JSValue.arg args 0) w
  | .get_extended_address_information_getExtendedAddressInformation_get =>
    SDK.get_extended_address_information_getExtendedAddressInformation_get api
      (JSValue.arg args 0) w
  | .get_wallet_information_getWalletInformation_get =>
    SDK.get_wallet_information_getWalletInformation_get api (JSValue.arg args 0) w
  | .get_transactions_getTransactions_get =>
    SDK.get_transactions_getTransactions_get api (JSValue.arg args 0) w
  | .get_address_balance_getAddressBalance_get =>
    SDK.get_address_balance_getAddressBalance_get api (JSValue.arg args 0) w
  | .get_address_getAddressState_get =>
    SDK.get_address_getAddressState_get api (JSValue.arg args 0) w
  | .pack_address_packAddress_get =>
    SDK.pack_address_packAddress_get api (JSValue.arg args 0) w
  | .unpack_address_unpackAddress_get =>
    SDK.unpack_address_unpackAddress_get api (JSValue.arg args 0) w
  | .get_masterchain_info_getMasterchainInfo_get =>
    SDK.get_masterchain_info_getMasterchainInfo_get api w
  | .get_masterchain_block_signatures_getMasterchainBlockSignatures_get =>
    SDK.get_masterchain_block_signatures_getMasterchainBlockSignatures_get api
      (JSValue.arg args 0) w
  | .get_shard_block_proof_getShardBlockProof_get =>
    SDK.get_shard_block_proof_getShardBlockProof_get api (JSValue.arg args 0) w
  | .get_consensus_block_getConsensusBlock_get =>
    SDK.get_consensus_block_getConsensusBlock_get api w
  | .lookup_block_lookupBlock_get =>
    SDK.lookup_block_lookupBlock_get api (JSValue.arg args 0) w
  | .get_shards_shards_get =>
    SDK.get_shards_shards_get api (JSValue.arg args 0) w
  | .get_block_transactions_getBlockTransactions_get =>
    SDK.get_block_transactions_getBlockTransactions_get api (JSValue.arg args 0) w
  | .get_block_header_getBlockHeader_get =>
    SDK.get_block_header_getBlockHeader_get api (JSValue.arg args 0) w
  | .get_token_data_getTokenData_get =>
    SDK.get_token_data_getTokenData_get api (JSValue.arg args 0) w
  | .get_try_locate_tx_tryLocateTx_get =>
    SDK.get_try_locate_tx_tryLocateTx_get api (JSValue.arg args 0) w
  | .get_try_locate_result_tx_tryLocateResultTx_get =>
    SDK.get_try_locate_result_tx_tryLocateResultTx_get api (JSValue.arg args 0) w
  | .get_try_locate_source_tx_tryLocateSourceTx_get =>
    SDK.get_try_locate_source_tx_tryLocateSourceTx_get api (JSValue.arg args 0) w
  | .detect_address_detectAddress_get =>
    SDK.detect_address_detectAddress_get api (JSValue.arg args 0) w

/-- The methods of the class `SDK`. -/
inductive Method where
  | config
  | auth
  | server
  | endpoint (e : Endpoint)
  deriving DecidableEq, Repr

/-- A method call `sdk[m](...args)` on the instance: `config(config)` and
`server(url, variables)` bind their parameters by position, `auth(...values)`
takes the whole argument list. -/
def SDK.call {σ : Type} (api : APICore σ) (m : Method) (args : List JSValue) (w : World σ) :
    Completion × World σ :=
  match m with
  | .config => SDK.config api (JSValue.arg args 0) w
  | .auth => SDK.auth api args w
  | .server => SDK.server api (JSValue.arg args 0) (JSValue.arg args 1) w
  | .endpoint e => SDK.invoke api e args w

/-- The error of calling a method on a value that does not have it. -/
def typeError : JSValue :=
  .object [("name", .string "TypeError")]

/-- A method call `receiver[m](...args)` on an arbitrary value: only the SDK
instance has the methods of the class. -/
def SDK.send {σ : Type} (api : APICore σ) (receiver : JSValue) (m : Method)
    (args : List JSValue) (w : World σ) : Completion × World σ :=
  match receiver with
  | .ref r => if r = w.self then SDK.call api m args w else (.throw typeError, w)
  | _ => (.throw typeError, w)

/-- The chained expression `sdk[m₁](...args₁)[m₂](...args₂)`: the second call is
made on what the first one returns. -/
def SDK.chain {σ : Type} (api : APICore σ) (m₁ : Method) (args₁ : List JSValue)
    (m₂ : Method) (args₂ : List JSValue) (w : World σ) : Completion × World σ :=
  match SDK.send api (.ref w.self) m₁ args₁ w with
  | (.normal v, w1) => SDK.send api v m₂ args₂ w1
  | (.throw e, w1) => (.throw e, w1)

/-- The statement sequence `sdk[m₁](...args₁); sdk[m₂](...args₂); ...`, each
call made on the instance and its result discarded. -/
def SDK.run {σ : Type} (api : APICore σ) (calls : List (Method × List JSValue))
    (w : World σ) : World σ :=
  calls.foldl (fun w c => (SDK.call api c.1 c.2 w).2) w

/-- The calls recorded in the trace, without their receivers. -/
def World.calls {σ : Type} (w : World σ) : List CoreCall :=
  w.trace.map Prod.snd

/-- The configuration calls (everything but `fetch`) the dispatcher has received. -/
def World.configCalls {σ : Type} (w : World σ) : List (Ref × CoreCall) :=
  w.trace.filter (fun c => decide (c.2.method ≠ CoreMethod.fetch))

/-- A dispatcher without state whose `fetch` returns `undefined`: used to read
off what a method asks of the dispatcher. -/
def APICore.idle : APICore Unit where
  create := fun _ => ()
  setConfig := fun _ s => s
  setAuth := fun _ s => s
  setServer := fun _ s => s
  fetch := fun _ s => (.normal .undefined, s)

/-- A world with an empty trace for `APICore.idle`. -/
def World.blank : World Unit :=
  { self := 0, spec := .undefined, core := 1, coreState := (), trace := [] }

/-- The dispatcher calls a call of endpoint method `e` without arguments makes. -/
def Endpoint.request (e : Endpoint) : List CoreCall :=
  (SDK.invoke APICore.idle e [] World.blank).2.calls

/-- The path endpoint method `e` dispatches to: the first argument of its call. -/
def Endpoint.path (e : Endpoint) : JSValue :=
  match e.request with
  | c :: _ => JSValue.arg c.args 0
  | [] => .undefined

/-- The verb endpoint method `e` dispatches with: the second argument of its call. -/
def Endpoint.verb (e : Endpoint) : JSValue :=
  match e.request with
  | c :: _ => JSValue.arg c.args 1
  | [] => .undefined

/-- The endpoint catalog of the specification, in its order. -/
def catalog : List String :=
  ["/getAddressInformation", "/getExtendedAddressInformation", "/getWalletInformation",
   "/getTransactions", "/getAddressBalance", "/getAddressState", "/packAddress",
   "/unpackAddress", "/getMasterchainInfo", "/getMasterchainBlockSignatures",
   "/getShardBlockProof", "/getConsensusBlock", "/lookupBlock", "/shards",
   "/getBlockTransactions", "/getBlockHeader", "/getTokenData", "/tryLocateTx",
   "/tryLocateResultTx", "/tryLocateSourceTx", "/detectAddress"]

/-- State of the sample dispatcher `APICore.store`. -/
structure Settings where
  spec : JSValue
  config : JSValue
  auth : List JSValue
  server : List JSValue

/-- A sample dispatcher to evaluate the facade on concrete inputs: each setter
keeps what it received, and `fetch` answers with a promise fulfilled with the
request it was asked for and the credentials and server it holds. -/
def APICore.store : APICore Settings where
  create := fun args =>
    { spec := JSValue.arg args 0, config := .undefined, auth := [], server := [] }
  setConfig := fun args s => { s with config := JSValue.arg args 0 }
  setAuth := fun args s => { s with auth := args }
  setServer := fun args s => { s with server := args }
  fetch := fun args s =>
    (.normal (.fulfilled (.object
      [("request", .array args), ("auth", .array s.auth), ("server", .array s.server)])), s)

/-- A sample dispatcher whose every request is answered with HTTP 500: `fetch`
returns a promise rejected with an error carrying that status, and counts the
requests made. -/
def APICore.failing : APICore Nat where
  create := fun _ => 0
  setConfig := fun _ s => s
  setAuth := fun _ s => s
  setServer := fun _ s => s
  fetch := fun _ s =>
    (.normal (.rejected (.object [("name", .string "FetchError"), ("status", .number 500)])),
      s + 1)

/-- A configuration call on the facade, with the values of the method's
parameters: `config(config)`, `auth(...values)` or `server(url, variables)`
(`variables` is `undefined` when the caller gave none). -/
inductive Setting where
  | config (config : JSValue)
  | auth (values : List JSValue)
  | server (url vars : JSValue)

/-- The method call a configuration call is. -/
def Setting.call : Setting → Method × List JSValue
  | .config c => (.config, [c])
  | .auth values => (.auth, values)
  | .server url vars => (.server, [url, vars])

/-- The dispatcher call that corresponds to a configuration call, in the
specification's words: `setConfig`, `setAuth`, `setServer` with the same
arguments, `variables` being the empty mapping when the caller gave none. -/
def Setting.coreCall : Setting → CoreCall
  | .config c => ⟨.setConfig, [c]⟩
  | .auth values => ⟨.setAuth, values⟩
  | .server url .undefined => ⟨.setServer, [url, .object []]⟩
  | .server url vars => ⟨.setServer, [url, vars]⟩

/-- The state in which a call leaves the dispatcher. -/
def APICore.perform {σ : Type} (api : APICore σ) (c : CoreCall) (s : σ) : σ :=
  match c.method with
  | .setConfig => api.setConfig c.args s
  | .setAuth => api.setAuth c.args s
  | .setServer => api.setServer c.args s
  | .fetch => (api.fetch c.args s).2

/-- The blank world, for the sample dispatcher `APICore.store`. -/
def World.blankStore : World Settings :=
  { self := 0, spec := .undefined, core := 1,
    coreState := APICore.store.create [.undefined], trace := [] }

/-! ## Theorems -/

/-- C1: for every endpoint method, every dispatcher, every argument list and
every earlier state, one invocation is exactly one call of the dispatcher's
`fetch` on `this.core`, with the method's path as first argument and `'get'` as
second: the method's completion and the dispatcher's new state are those of one
application of `fetch` to these arguments in the state before the call, the
trace grows by that one call, and nothing else changes. The path and the verb
are the same for all arguments and states, and the path of
`get_address_information_getAddressInformation_get` is `'/getAddressInformation'`. -/
theorem endpoint_one_fetch_fixed_path_verb {σ : Type} (api : APICore σ) (e : Endpoint)
    (args : List JSValue) (w : World σ) :
    (∃ rest : List JSValue,
      SDK.invoke api e args w
        = ((api.fetch (e.path :: JSValue.string "get" :: rest) w.coreState).1,
            { w with
              coreState := (api.fetch (e.path :: JSValue.string "get" :: rest) w.coreState).2
              trace := w.trace
                ++ [(w.core, ⟨.fetch, e.path :: JSValue.string "get" :: rest⟩)] })
      ∧ (SDK.invoke api e args w).1
          = (api.fetch (e.path :: JSValue.string "get" :: rest) w.coreState).1
      ∧ (SDK.invoke api e args w).2.coreState
          = (api.fetch (e.path :: JSValue.string "get" :: rest) w.coreState).2
      ∧ (SDK.invoke api e args w).2.trace
          = w.trace ++ [(w.core, ⟨.fetch, e.path :: JSValue.string "get" :: rest⟩)])
    ∧ e.verb = JSValue.string "get"
    ∧ Endpoint.path .get_address_information_getAddressInformation_get
        = JSValue.string "/getAddressInformation" := by
  refine ⟨?_, ?_, rfl⟩
  · cases e <;> exact ⟨_, rfl, rfl, rfl, rfl⟩
  · cases e <;> rfl

/-- C1 on the sample dispatcher that counts its requests: one invocation of
`get_address_information_getAddressInformation_get` makes the count 1 and
returns what that request returned. -/
theorem endpoint_one_fetch_counted :
    (SDK.invoke APICore.failing .get_address_information_getAddressInformation_get
        [.object [("address", .string "EQ")]]
        (SDK.construct APICore.failing id .null 0 1)).2.coreState = 1
    ∧ (SDK.invoke APICore.failing .get_address_information_getAddressInformation_get
        [.object [("address", .string "EQ")]]
        (SDK.construct APICore.failing id .null 0 1)).2.calls.map CoreCall.args
      = [[.string "/getAddressInformation", .string "get",
          .object [("address", .string "EQ")]]] := by
  obtain ⟨rest, -, -, hstate, -⟩ :=
    (endpoint_one_fetch_fixed_path_verb APICore.failing
      .get_address_information_getAddressInformation_get
      [.object [("address", .string "EQ")]] (SDK.construct APICore.failing id .null 0 1)).1
  exact ⟨hstate.trans rfl, rfl⟩

/-- C2: the class has exactly 21 endpoint methods, and the paths they dispatch
to are the 21 paths of the catalog, one method per path: the list of the
methods' paths is the catalog, the catalog has no repetition, every catalog
path is dispatched by exactly one method, and no two methods share a path. -/
theorem endpoints_are_the_catalog :
    Endpoint.all.length = 21
    ∧ Endpoint.all.Nodup
    ∧ (∀ e : Endpoint, e ∈ Endpoint.all)
    ∧ Endpoint.all.map Endpoint.path = catalog.map JSValue.string
    ∧ catalog.length = 21
    ∧ catalog.Nodup
    ∧ (∀ p ∈ catalog, ∃! e : Endpoint, e.path = JSValue.string p)
    ∧ (∀ e : Endpoint, ∃ p ∈ catalog, e.path = JSValue.string p)
    ∧ (∀ e₁ e₂ : Endpoint, e₁.path = e₂.path → e₁ = e₂) := by
  have hall : ∀ e : Endpoint, e ∈ Endpoint.all := by
    intro e
    cases e <;> simp [Endpoint.all]
  have hmap : Endpoint.all.map Endpoint.path = catalog.map JSValue.string := rfl
  have hcat : catalog.Nodup := by simp [catalog]
  have hstr : Function.Injective JSValue.string := fun a b h => by
    injection h
  have hnd : (Endpoint.all.map Endpoint.path).Nodup := by
    rw [hmap]
    exact hcat.map hstr
  have hinj : ∀ e₁ e₂ : Endpoint, e₁.path = e₂.path → e₁ = e₂ := fun e₁ e₂ h =>
    List.inj_on_of_nodup_map hnd (hall e₁) (hall e₂) h
  refine ⟨rfl, by decide, hall, hmap, rfl, hcat, ?_, ?_, hinj⟩
  · intro p hp
    have hmem : JSValue.string p ∈ Endpoint.all.map Endpoint.path := by
      rw [hmap]
      exact List.mem_map_of_mem _ hp
    obtain ⟨e, -, he⟩ := List.mem_map.mp hmem
    exact ⟨e, he, fun e2 he2 => hinj e2 e (he2.trans he.symm)⟩
  · intro e
    have hmem : e.path ∈ catalog.map JSValue.string := by
      rw [← hmap]
      exact List.mem_map_of_mem _ (hall e)
    obtain ⟨p, hp, hpe⟩ := List.mem_map.mp hmem
    exact ⟨p, hp, hpe.symm⟩

/-- C3, as stated, fails: `get_masterchain_info_getMasterchainInfo_get` declares
no parameter, so a metadata object passed to it does not reach `fetch`, which is
called with the path and the verb only. -/
theorem getMasterchainInfo_drops_metadata :
    (SDK.invoke APICore.idle .get_masterchain_info_getMasterchainInfo_get
        [.object [("seqno", .number 1)]] World.blank).2.calls.map CoreCall.args
      = [[.string "/getMasterchainInfo", .string "get"]]
    ∧ ¬ (∀ (e : Endpoint) (m : JSValue), ∃ c : CoreCall,
          (SDK.invoke APICore.idle e [m] World.blank).2.calls = [c] ∧ c.args[2]? = some m) := by
  refine ⟨rfl, fun h => ?_⟩
  obtain ⟨c, hc, hm⟩ := h .get_masterchain_info_getMasterchainInfo_get
    (.object [("seqno", .number 1)])
  have hc2 : [(⟨.fetch, [.string "/getMasterchainInfo", .string "get"]⟩ : CoreCall)] = [c] := hc
  injection hc2 with hc3 _
  subst hc3
  simp at hm

/-- C3, amended: each of the 19 endpoint methods that declare the parameter
`metadata` passes the caller's first argument `m` as the third argument of its
one `fetch` call, unchanged, whatever `m` is; the two methods without parameter
(`getMasterchainInfo`, `getConsensusBlock`) call `fetch` with path and verb only.
In both cases the method's completion is that of `fetch`: no `m` is rejected
locally. -/
theorem metadata_forwarded_when_declared {σ : Type} (api : APICore σ) (e : Endpoint)
    (m : JSValue) (rest : List JSValue) (w : World σ) :
    (e.arity = 1 →
      (SDK.invoke api e (m :: rest) w).2.trace
          = w.trace ++ [(w.core, ⟨.fetch, [e.path, .string "get", m]⟩)]
      ∧ (SDK.invoke api e (m :: rest) w).1
          = (api.fetch [e.path, .string "get", m] w.coreState).1)
    ∧ (e.arity = 0 →
      (SDK.invoke api e (m :: rest) w).2.trace
          = w.trace ++ [(w.core, ⟨.fetch, [e.path, .string "get"]⟩)]
      ∧ (SDK.invoke api e (m :: rest) w).1
          = (api.fetch [e.path, .string "get"] w.coreState).1)
    ∧ (e.arity = 1 ∨ e.arity = 0)
    ∧ Endpoint.all.filter (fun e => decide (e.arity = 0))
        = [.get_masterchain_info_getMasterchainInfo_get,
           .get_consensus_block_getConsensusBlock_get]
    ∧ (Endpoint.all.filter (fun e => decide (e.arity = 1))).length = 19 := by
  refine ⟨?_, ?_, ?_, by decide, by decide⟩
  · intro h
    cases e <;> first | exact ⟨rfl, rfl⟩ | exact absurd h (by decide)
  · intro h
    cases e <;> first | exact ⟨rfl, rfl⟩ | exact absurd h (by decide)
  · cases e <;> decide

/-- C4: for every endpoint method the caller receives the completion of the one
`fetch` call: the method's completion is that of `fetch` on the dispatcher's
state before the call (the same fulfilled promise, the same rejected promise,
or the same thrown value), the trace grows by that one `fetch` call, and the
dispatcher is left in the state in which that call left it. -/
theorem endpoint_result_is_fetch_result {σ : Type} (api : APICore σ) (e : Endpoint)
    (args : List JSValue) (w : World σ) :
    ∃ fargs : List JSValue,
      (SDK.invoke api e args w).1 = (api.fetch fargs w.coreState).1
      ∧ (SDK.invoke api e args w).2.trace = w.trace ++ [(w.core, ⟨.fetch, fargs⟩)]
      ∧ (SDK.invoke api e args w).2.coreState = (api.fetch fargs w.coreState).2
      ∧ (∀ v, (api.fetch fargs w.coreState).1 = .normal (.fulfilled v) →
          (SDK.invoke api e args w).1 = .normal (.fulfilled v))
      ∧ (∀ err, (api.fetch fargs w.coreState).1 = .normal (.rejected err) →
          (SDK.invoke api e args w).1 = .normal (.rejected err))
      ∧ (∀ err, (api.fetch fargs w.coreState).1 = .throw err →
          (SDK.invoke api e args w).1 = .throw err) := by
  cases e <;> exact ⟨_, rfl, rfl, rfl, fun _ h => h, fun _ h => h, fun _ h => h⟩

/-- C4 at a dispatcher that answers HTTP 500: the method's promise is rejected
with the dispatcher's error, and one request was made. -/
theorem endpoint_result_is_fetch_result_http500 :
    (SDK.invoke APICore.failing .get_transactions_getTransactions_get
        [.object [("address", .string "EQ")]]
        (SDK.construct APICore.failing id .null 0 1)).1
      = .normal (.rejected (.object [("name", .string "FetchError"), ("status", .number 500)]))
    ∧ (SDK.invoke APICore.failing .get_transactions_getTransactions_get
        [.object [("address", .string "EQ")]]
        (SDK.construct APICore.failing id .null 0 1)).2.coreState = 1
    ∧ (SDK.invoke APICore.failing .get_transactions_getTransactions_get
        [.object [("address", .string "EQ")]]
        (SDK.construct APICore.failing id .null 0 1)).2.trace.length = 1 := by
  obtain ⟨fargs, h1, h2, h3, -, h5, -⟩ :=
    endpoint_result_is_fetch_result APICore.failing .get_transactions_getTransactions_get
      [.object [("address", .string "EQ")]] (SDK.construct APICore.failing id .null 0 1)
  exact ⟨h5 _ rfl, h3, by rw [h2]; rfl⟩

/-- C5: for every list of credential values, `auth(...values)` completes with a
reference to the very instance it was called on, after one `setAuth` call on
`this.core` with exactly these values in this order; the instance's fields are
unchanged and no other call is made. Hence the chained `sdk.auth(a).auth(b)` is
`sdk.auth(a)` followed by `sdk.auth(b)` on the one instance. -/
theorem auth_returns_this {σ : Type} (api : APICore σ) (values : List JSValue) (w : World σ) :
    (SDK.call api .auth values w).1 = .normal (.ref w.self)
    ∧ (SDK.call api .auth values w).2.trace = w.trace ++ [(w.core, ⟨.setAuth, values⟩)]
    ∧ (SDK.call api .auth values w).2.coreState = api.setAuth values w.coreState
    ∧ (SDK.call api .auth values w).2.self = w.self
    ∧ (SDK.call api .auth values w).2.spec = w.spec
    ∧ (SDK.call api .auth values w).2.core = w.core
    ∧ (∀ b : List JSValue,
        SDK.chain api .auth values .auth b w
          = SDK.call api .auth b (SDK.call api .auth values w).2) := by
  refine ⟨rfl, rfl, rfl, rfl, rfl, rfl, fun b => ?_⟩
  simp [SDK.chain, SDK.send, SDK.call, SDK.auth, World.coreSetAuth, World.record]

/-- C5 on the sample dispatcher: `sdk.auth('user', 'pass').auth('token')` returns
the instance at address 7 and leaves the dispatcher holding `'token'`. -/
theorem auth_returns_this_chained_sample :
    (SDK.chain APICore.store .auth [.string "user", .string "pass"] .auth [.string "token"]
        (SDK.construct APICore.store id .null 7 8)).1 = .normal (.ref 7)
    ∧ (SDK.chain APICore.store .auth [.string "user", .string "pass"] .auth [.string "token"]
        (SDK.construct APICore.store id .null 7 8)).2.coreState.auth = [.string "token"]
    ∧ (SDK.chain APICore.store .auth [.string "user", .string "pass"] .auth [.string "token"]
        (SDK.construct APICore.store id .null 7 8)).2.calls.map CoreCall.args
        = [[.string "user", .string "pass"], [.string "token"]] := by
  have h := (auth_returns_this APICore.store [.string "user", .string "pass"]
    (SDK.construct APICore.store id .null 7 8)).2.2.2.2.2.2 [.string "token"]
  rw [h]
  exact ⟨rfl, rfl, rfl⟩

/-- C6: the doc comment of `auth` allows up to two credential values, and the
code sets no such bound. `auth('a', 'b', 'c')` on a fresh instance completes
normally with the instance, its one `setAuth` call carries all three values,
and the sample dispatcher then holds the three; so it is not the case that at
most two values reach `setAuth` in every call. -/
theorem auth_forwards_three_values :
    SDK.call APICore.store .auth [.string "a", .string "b", .string "c"]
        (SDK.construct APICore.store id .null 0 1)
      = (.normal (.ref 0),
          { self := 0, spec := .null, core := 1,
            coreState :=
              { spec := .null, config := .undefined,
                auth := [.string "a", .string "b", .string "c"], server := [] },
            trace := [(1, ⟨.setAuth, [.string "a", .string "b", .string "c"]⟩)] })
    ∧ (SDK.call APICore.store .auth [.string "a", .string "b", .string "c"]
        (SDK.construct APICore.store id .null 0 1)).2.calls.map
          (fun c => (c.method, c.args.length)) = [(.setAuth, 3)]
    ∧ (SDK.call APICore.idle .auth [.string "a", .string "b", .string "c"]
        World.blank).2.calls.map (fun c => (c.method, c.args.length)) = [(.setAuth, 3)]
    ∧ ¬ (∀ values : List JSValue,
          ∀ c ∈ (SDK.call APICore.idle .auth values World.blank).2.calls, c.args.length ≤ 2) := by
  refine ⟨rfl, rfl, rfl, fun h => ?_⟩
  have h3 := h [.string "a", .string "b", .string "c"]
    ⟨.setAuth, [.string "a", .string "b", .string "c"]⟩ (List.mem_singleton.mpr rfl)
  exact absurd h3 (by decide)

/-- A sequence of configuration calls leaves the instance's fields as they were,
adds the corresponding dispatcher calls to the trace in order, and leaves the
dispatcher in the state these calls produce. -/
theorem SDK.run_settings {σ : Type} (api : APICore σ) (settings : List Setting) (w : World σ) :
    SDK.run api (settings.map Setting.call) w
      = { w with
          coreState := settings.foldl (fun st s => api.perform s.coreCall st) w.coreState
          trace := w.trace ++ settings.map (fun s => (w.core, s.coreCall)) } := by
  induction settings generalizing w with
  | nil => simp [SDK.run]
  | cons s rest ih =>
    have hstep : SDK.run api ((s :: rest).map Setting.call) w
        = SDK.run api (rest.map Setting.call) (SDK.call api s.call.1 s.call.2 w).2 := rfl
    rw [hstep, ih]
    cases s with
    | config c => simp [Setting.call, Setting.coreCall, SDK.call, SDK.config, JSValue.arg,
        World.coreSetConfig, World.record, APICore.perform]
    | auth values => simp [Setting.call, Setting.coreCall, SDK.call, SDK.auth,
        World.coreSetAuth, World.record, APICore.perform]
    | server url vars =>
      cases vars <;> simp [Setting.call, Setting.coreCall, SDK.call, SDK.server, JSValue.arg,
        World.coreSetServer, World.record, APICore.perform]

/-- C7: `config`, `auth`, `server` and the endpoint methods all act on the one
dispatcher `this.core`. For every sequence of configuration calls followed by an
endpoint call, the trace grows by the corresponding `setConfig`/`setAuth`/
`setServer` calls, in order and all on `this.core`, followed by the one `fetch`
call; that `fetch` runs in the dispatcher state the setter calls produced, and
its completion is the method's. On the instance the constructor builds, the
receiver of all of them is the dispatcher created there; and after
`auth(value)` the next request is made by the dispatcher in the state
`setAuth(value)` left it in. -/
theorem configuration_reaches_later_requests {σ : Type} (api : APICore σ)
    (settings : List Setting) (e : Endpoint) (args : List JSValue) (w : World σ) :
    (SDK.run api (settings.map Setting.call) w).trace
        = w.trace ++ settings.map (fun s => (w.core, s.coreCall))
    ∧ (SDK.run api (settings.map Setting.call) w).coreState
        = settings.foldl (fun st s => api.perform s.coreCall st) w.coreState
    ∧ (SDK.run api (settings.map Setting.call) w).core = w.core
    ∧ (∃ fargs : List JSValue,
        (SDK.invoke api e args (SDK.run api (settings.map Setting.call) w)).2.trace
            = w.trace ++ settings.map (fun s => (w.core, s.coreCall))
                ++ [(w.core, ⟨.fetch, fargs⟩)]
        ∧ (SDK.invoke api e args (SDK.run api (settings.map Setting.call) w)).1
            = (api.fetch fargs
                (settings.foldl (fun st s => api.perform s.coreCall st) w.coreState)).1)
    ∧ (∀ (oasInit : JSValue → JSValue) (definition : JSValue) (self core : Ref),
        (SDK.run api (settings.map Setting.call)
            (SDK.construct api oasInit definition self core)).trace
          = settings.map (fun s => (core, s.coreCall))
        ∧ (SDK.run api (settings.map Setting.call)
            (SDK.construct api oasInit definition self core)).coreState
          = settings.foldl (fun st s => api.perform s.coreCall st)
              (api.create [oasInit definition, .string "chainbase/2.0.0 (api/6.1.1)"]))
    ∧ (∀ value : JSValue, ∃ fargs : List JSValue,
        (SDK.invoke api e args (SDK.call api .auth [value] w).2).1
            = (api.fetch fargs (api.setAuth [value] w.coreState)).1
        ∧ (SDK.invoke api e args (SDK.call api .auth [value] w).2).2.trace
            = w.trace ++ [(w.core, ⟨.setAuth, [value]⟩), (w.core, ⟨.fetch, fargs⟩)]) := by
  refine ⟨?_, ?_, ?_, ?_, ?_, ?_⟩
  · rw [SDK.run_settings]
  · rw [SDK.run_settings]
  · rw [SDK.run_settings]
  · rw [SDK.run_settings]
    cases e <;> exact ⟨_, rfl, rfl⟩
  · intro oasInit definition self core
    rw [SDK.run_settings]
    exact ⟨by simp [SDK.construct], rfl⟩
  · intro value
    cases e <;> refine ⟨_, rfl, ?_⟩ <;>
      simp [SDK.invoke, SDK.call, SDK.auth, World.coreSetAuth, World.coreFetch, World.record,
        SDK.get_address_information_getAddressInformation_get,
        SDK.get_extended_address_information_getExtendedAddressInformation_get,
        SDK.get_wallet_information_getWalletInformation_get,
        SDK.get_transactions_getTransactions_get,
        SDK.get_address_balance_getAddressBalance_get,
        SDK.get_address_getAddressState_get,
        SDK.pack_address_packAddress_get,
        SDK.unpack_address_unpackAddress_get,
        SDK.get_masterchain_info_getMasterchainInfo_get,
        SDK.get_masterchain_block_signatures_getMasterchainBlockSignatures_get,
        SDK.get_shard_block_proof_getShardBlockProof_get,
        SDK.get_consensus_block_getConsensusBlock_get,
        SDK.lookup_block_lookupBlock_get,
        SDK.get_shards_shards_get,
        SDK.get_block_transactions_getBlockTransactions_get,
        SDK.get_block_header_getBlockHeader_get,
        SDK.get_token_data_getTokenData_get,
        SDK.get_try_locate_tx_tryLocateTx_get,
        SDK.get_try_locate_result_tx_tryLocateResultTx_get,
        SDK.get_try_locate_source_tx_tryLocateSourceTx_get,
        SDK.detect_address_detectAddress_get]

/-- C7 on the sample dispatcher: after `config`, `auth('key')` and `server(url)`
on a fresh instance, a request is answered by the dispatcher that holds `'key'`
as its credential and `url` as its server. -/
theorem configuration_reaches_later_requests_sample :
    (SDK.invoke APICore.store .get_address_balance_getAddressBalance_get
        [.object [("address", .string "EQ")]]
        (SDK.run APICore.store
          ([Setting.config (.object [("timeout", .number 5000)]),
            Setting.auth [.string "key"],
            Setting.server (.string "https://eu.api.example.com/v14") .undefined].map
              Setting.call)
          (SDK.construct APICore.store id .null 0 1))).1
      = .normal (.fulfilled (.object
          [("request", .array [.string "/getAddressBalance", .string "get",
              .object [("address", .string "EQ")]]),
           ("auth", .array [.string "key"]),
           ("server", .array [.string "https://eu.api.example.com/v14", .object []])]))
    ∧ (SDK.invoke APICore.store .get_address_balance_getAddressBalance_get
        [.object [("address", .string "EQ")]]
        (SDK.run APICore.store
          ([Setting.config (.object [("timeout", .number 5000)]),
            Setting.auth [.string "key"],
            Setting.server (.string "https://eu.api.example.com/v14") .undefined].map
              Setting.call)
          (SDK.construct APICore.store id .null 0 1))).2.trace.map
            (fun c => (c.1, c.2.method))
      = [(1, .setConfig), (1, .setAuth), (1, .setServer), (1, .fetch)] := by
  exact ⟨rfl, rfl⟩

/-- C8: `server(url, variables)` with `variables` given makes one `setServer`
call on `this.core` with `url` and `variables` unchanged, returns `undefined`
and never throws, whatever the template and the variables are; with `variables`
omitted the call is made with an empty mapping, so `server(url)` and
`server(url, {})` do the same. -/
theorem server_forwards_url_and_variables {σ : Type} (api : APICore σ) (url vars : JSValue)
    (w : World σ) (hvars : vars ≠ JSValue.undefined) :
    SDK.call api .server [url, vars] w
      = (.normal .undefined,
          { w with
            coreState := api.setServer [url, vars] w.coreState
            trace := w.trace ++ [(w.core, ⟨.setServer, [url, vars]⟩)] })
    ∧ SDK.call api .server [url] w = SDK.call api .server [url, .object []] w
    ∧ SDK.call api .server [url, .undefined] w = SDK.call api .server [url, .object []] w
    ∧ SDK.call api .server [url] w
      = (.normal .undefined,
          { w with
            coreState := api.setServer [url, .object []] w.coreState
            trace := w.trace ++ [(w.core, ⟨.setServer, [url, .object []]⟩)] }) := by
  refine ⟨?_, rfl, rfl, rfl⟩
  cases vars with
  | undefined => exact absurd rfl hvars
  | _ => rfl

/-- C8 at the specification's example: the template has the placeholder
`{region}`, the variables do not cover it, and `server` passes both on. -/
theorem server_forwards_url_and_variables_example :
    SDK.call APICore.store .server
        [.string "https://{region}.api.example.com/{basePath}",
         .object [("name", .string "eu"), ("basePath", .string "v14")]] World.blankStore
      = (.normal .undefined,
          { World.blankStore with
            coreState := { World.blankStore.coreState with
              server := [.string "https://{region}.api.example.com/{basePath}",
                .object [("name", .string "eu"), ("basePath", .string "v14")]] }
            trace := [(1, ⟨.setServer, [.string "https://{region}.api.example.com/{basePath}",
                .object [("name", .string "eu"), ("basePath", .string "v14")]]⟩)] }) :=
  (server_forwards_url_and_variables APICore.store
    (.string "https://{region}.api.example.com/{basePath}")
    (.object [("name", .string "eu"), ("basePath", .string "v14")]) World.blankStore
    (by simp)).1

/-- C9: for every options object, `config(options)` makes one `setConfig` call on
`this.core` with that object, leaves everything else as it was and returns
`undefined`, not the instance; so nothing can be chained to it. -/
theorem config_forwards_options {σ : Type} (api : APICore σ) (options : JSValue) (w : World σ) :
    SDK.call api .config [options] w
      = (.normal .undefined,
          { w with
            coreState := api.setConfig [options] w.coreState
            trace := w.trace ++ [(w.core, ⟨.setConfig, [options]⟩)] })
    ∧ (SDK.call api .config [options] w).1 ≠ .normal (.ref w.self)
    ∧ (∀ (m : Method) (args : List JSValue),
        (SDK.chain api .config [options] m args w).1 = .throw typeError) := by
  refine ⟨rfl, ?_, fun m args => ?_⟩
  · simp [SDK.call, SDK.config]
  · simp [SDK.chain, SDK.send, SDK.call, SDK.config]

/-- C10: an endpoint call leaves the instance's fields `spec` and `core` (and
its identity) unchanged and calls no setter: the one call it adds to the trace
is a `fetch`, so the configuration calls the dispatcher has received are the
same after it as before, and of two endpoint calls made in either order each
is made after the same configuration calls. -/
theorem endpoint_leaves_configuration {σ : Type} (api : APICore σ) (e : Endpoint)
    (args : List JSValue) (w : World σ) :
    (SDK.invoke api e args w).2.self = w.self
    ∧ (SDK.invoke api e args w).2.spec = w.spec
    ∧ (SDK.invoke api e args w).2.core = w.core
    ∧ (∃ c : CoreCall, (SDK.invoke api e args w).2.trace = w.trace ++ [(w.core, c)]
        ∧ c.method = .fetch)
    ∧ (SDK.invoke api e args w).2.configCalls = w.configCalls
    ∧ (∀ (e₂ : Endpoint) (args₂ : List JSValue),
        (SDK.invoke api e₂ args₂ w).2.configCalls = (SDK.invoke api e args w).2.configCalls
        ∧ (SDK.invoke api e₂ args₂ (SDK.invoke api e args w).2).2.configCalls
          = (SDK.invoke api e args (SDK.invoke api e₂ args₂ w).2).2.configCalls) := by
  have key : ∀ (e : Endpoint) (args : List JSValue) (w : World σ),
      (SDK.invoke api e args w).2.configCalls = w.configCalls := by
    intro e args w
    cases e <;> simp [World.configCalls, SDK.invoke, World.coreFetch, World.record,
        SDK.get_address_information_getAddressInformation_get,
        SDK.get_extended_address_information_getExtendedAddressInformation_get,
        SDK.get_wallet_information_getWalletInformation_get,
        SDK.get_transactions_getTransactions_get,
        SDK.get_address_balance_getAddressBalance_get,
        SDK.get_address_getAddressState_get,
        SDK.pack_address_packAddress_get,
        SDK.unpack_address_unpackAddress_get,
        SDK.get_masterchain_info_getMasterchainInfo_get,
        SDK.get_masterchain_block_signatures_getMasterchainBlockSignatures_get,
        SDK.get_shard_block_proof_getShardBlockProof_get,
        SDK.get_consensus_block_getConsensusBlock_get,
        SDK.lookup_block_lookupBlock_get,
        SDK.get_shards_shards_get,
        SDK.get_block_transactions_getBlockTransactions_get,
        SDK.get_block_header_getBlockHeader_get,
        SDK.get_token_data_getTokenData_get,
        SDK.get_try_locate_tx_tryLocateTx_get,
        SDK.get_try_locate_result_tx_tryLocateResultTx_get,
        SDK.get_try_locate_source_tx_tryLocateSourceTx_get,
        SDK.detect_address_detectAddress_get]
  refine ⟨?_, ?_, ?_, ?_, key e args w, fun e₂ args₂ => ⟨?_, ?_⟩⟩
  · cases e <;> rfl
  · cases e <;> rfl
  · cases e <;> rfl
  · cases e <;> exact ⟨_, rfl, rfl⟩
  · rw [key, key]
  · rw [key, key, key, key]

end Chainbase
